import Mathlib

/-!
Verification of the movie-intake pipeline (`movies/movie_fetch.py`,
`movies/movie_info.py`).  Python strings are modelled as `List Char`,
Python `None`-able values as `Option`, floating popularity scores as `Rat`
(only order comparisons occur), `sys.exit` and uncaught Python exceptions
as `Except` errors.  Dates are day numbers (`Int`), as produced by
subtracting `timedelta(days=k)` from a fixed run datetime.
-/

/-- Python `str` modelled as a list of characters. -/
abbrev Str := List Char

/-- Python exceptions and `sys.exit` outcomes that the pipeline can produce. -/
inductive PyExc where
  | typeError
  | valueError
  | systemExit (msg : Str)
  deriving DecidableEq, Repr

/-- Truthiness of an optional string: `None` and the empty string are falsy. -/
def pyTruthyOptStr : Option Str → Bool
  | none => false
  | some s => !s.isEmpty

/-- Truthiness of an optional int: `None` and `0` are falsy. -/
def pyTruthyOptInt : Option Int → Bool
  | none => false
  | some i => decide (i ≠ 0)

/-- Model of Python `range(start, stop, step)` for a positive step. -/
def pyRange (start stop step : Nat) : List Nat :=
  if h : 0 < step ∧ start < stop then start :: pyRange (start + step) stop step
  else []
termination_by stop - start
decreasing_by omega

/-- Model of the Python slice `l[a:b]` for `0 ≤ a ≤ b ≤ len(l)`. -/
def listSlice (l : List α) (a b : Nat) : List α :=
  (l.drop a).take (b - a)

/-- Shared static method `_batches(iterable, n)` of `MovieData` and `MovieInfo`:
`for ndx in range(0, batchLen, n): yield iterable[ndx:min(ndx + n, batchLen)]`. -/
def batches (l : List α) (n : Nat) : List (List α) :=
  (pyRange 0 l.length n).map (fun ndx => listSlice l ndx (min (ndx + n) l.length))

/-- The decimal digit characters, in order. -/
def pyDigits : Str := ['0', '1', '2', '3', '4', '5', '6', '7', '8', '9']

/-- The character for a single decimal digit, as produced by Python `str`. -/
def digitChar : Nat → Char
  | 0 => '0' | 1 => '1' | 2 => '2' | 3 => '3' | 4 => '4'
  | 5 => '5' | 6 => '6' | 7 => '7' | 8 => '8' | _ => '9'

/-- Python `str(n)` for a non-negative integer: decimal, no leading zeros. -/
def natChars (n : Nat) : Str :=
  if n < 10 then [digitChar n]
  else natChars (n / 10) ++ [digitChar (n % 10)]
termination_by n
decreasing_by omega

/-- Python `str(i)` for an integer. -/
def intChars (i : Int) : Str :=
  if i < 0 then '-' :: natChars (-i).toNat else natChars i.toNat

/-- Numeric value of a decimal digit character, `none` for non-digits. -/
def digitVal (c : Char) : Option Nat :=
  if '0' ≤ c ∧ c ≤ '9' then some (c.toNat - 48) else none

/-- Accumulating decimal evaluation of a digit string, `none` on a non-digit. -/
def digitsGo : Str → Nat → Option Nat
  | [], acc => some acc
  | c :: t, acc =>
    match digitVal c with
    | some d => digitsGo t (acc * 10 + d)
    | none => none

/-- Decimal value of a non-empty all-digit string, else `none`. -/
def digitsToNat (cs : Str) : Option Nat :=
  if cs = [] then none else digitsGo cs 0

/-- Model of Python `int(s)` on canonical integer literals: an optional leading
minus sign followed by decimal digits; `none` models the `ValueError` raised on
any other input. -/
def pyInt (cs : Str) : Option Int :=
  if cs.head? = some '-' then (digitsToNat cs.tail).map (fun n => -(n : Int))
  else (digitsToNat cs).map (fun n => (n : Int))

/-- Worker for Python `str.split(sep)` with non-empty separator `c0 :: sep`:
scan left to right, emitting the chunk collected so far (in reverse in `cur`)
at each non-overlapping separator occurrence. -/
def splitGo (c0 : Char) (sep : Str) : Str → Str → List Str
  | [], cur => [cur.reverse]
  | c :: rest, cur =>
    if (c0 :: sep).isPrefixOf (c :: rest) then
      cur.reverse :: splitGo c0 sep ((c :: rest).drop (c0 :: sep).length) []
    else
      splitGo c0 sep rest (c :: cur)
termination_by s _ => s.length
decreasing_by
  · simp
    omega
  · simp

/-- Model of Python `str.split(sep)` for a non-empty separator (Python raises
on an empty separator; the `[]` case is never used). -/
def pySplit (sep s : Str) : List Str :=
  match sep with
  | [] => [s]
  | c :: cs => splitGo c cs s []

/-- The zero-padding of `_create_filename`: prepend `'0'` when the decimal
string has a single character. -/
def zeroPad2 (s : Str) : Str :=
  if s.length = 1 then '0' :: s else s

/-- Model of `MovieData._create_filename(day, month, year)`:
`'movie_ids_' + month + '_' + day + '_' + year + '.json.gz'` with the month and
day strings zero-padded to two characters. -/
def createFilename (day month year : Nat) : Str :=
  let d := zeroPad2 (natChars day)
  let m := zeroPad2 (natChars month)
  let y := natChars year
  "movie_ids_".data ++ m ++ '_' :: d ++ '_' :: y ++ ".json.gz".data

/-- Model of `MovieData._date_from_filename(filename)`:
`filename.split("movie_ids_")[1].split(".json.gz")[0].split("_")`. -/
def dateFromFilename (filename : Str) : List Str :=
  pySplit "_".data ((pySplit ".json.gz".data ((pySplit "movie_ids_".data filename).get! 1)).get! 0)

/-- The `ingest_date` string built by `_parse_movie_file`:
`file_date[2] + "-" + file_date[0] + "-" + file_date[1]`. -/
def ingestDateFromFilename (filename : Str) : Str :=
  let p := dateFromFilename filename
  p.get! 2 ++ '-' :: p.get! 0 ++ '-' :: p.get! 1

/-- Gregorian calendar date (year, month, day) of an epoch day number, as
computed by Python `datetime` arithmetic (civil-from-days algorithm). -/
def civilFromDays (z0 : Int) : Int × Nat × Nat :=
  let z := z0 + 719468
  let era := Int.fdiv z 146097
  let doe := (z - era * 146097).toNat
  let yoe := (doe - doe / 1460 + doe / 36524 - doe / 146096) / 365
  let doy := doe - (365 * yoe + yoe / 4 - yoe / 100)
  let mp := (5 * doy + 2) / 153
  let d := doy - (153 * mp + 2) / 5 + 1
  let m := if mp < 10 then mp + 3 else mp - 9
  ((yoe : Int) + era * 400 + (if m ≤ 2 then 1 else 0), m, d)

/-- Filename for the calendar date of an epoch day number, as built from
`prior_date.day`, `prior_date.month`, `prior_date.year`. -/
def createFilenameOfDate (z : Int) : Str :=
  let c := civilFromDays z
  createFilename c.2.2 c.2.1 c.1.toNat

/-- Model of `MovieData._create_filenames`: the filenames for
`self.today - timedelta(days=day)` for `day in range(backfilled_days + 1)`,
materialised in generation order. -/
def createFilenames (backfilled_days : Nat) (today : Int) : List Str :=
  (List.range (backfilled_days + 1)).map
    (fun (day : Nat) => createFilenameOfDate (today - (day : Int)))

/-- Regex token `%m` of `strptime`: `1[0-2] | 0[1-9] | [1-9]`. -/
def monthToken (cs : Str) : Option Nat :=
  match cs with
  | [c] =>
    match digitVal c with
    | some v => if 1 ≤ v then some v else none
    | none => none
  | [c1, c2] =>
    match digitVal c1, digitVal c2 with
    | some v1, some v2 =>
      if (v1 = 0 ∧ 1 ≤ v2) ∨ (10 ≤ v1 * 10 + v2 ∧ v1 * 10 + v2 ≤ 12) then
        some (v1 * 10 + v2)
      else none
    | _, _ => none
  | _ => none

/-- Regex token `%d` of `strptime`: `3[01] | [12][0-9] | 0[1-9] | [1-9]`. -/
def dayToken (cs : Str) : Option Nat :=
  match cs with
  | [c] =>
    match digitVal c with
    | some v => if 1 ≤ v then some v else none
    | none => none
  | [c1, c2] =>
    match digitVal c1, digitVal c2 with
    | some v1, some v2 =>
      if (v1 = 0 ∧ 1 ≤ v2) ∨ (10 ≤ v1 * 10 + v2 ∧ v1 * 10 + v2 ≤ 31) then
        some (v1 * 10 + v2)
      else none
    | _, _ => none
  | _ => none

/-- Regex token `%Y` of `strptime`: exactly four decimal digits. -/
def yearToken (cs : Str) : Option Nat :=
  match cs with
  | [a, b, c, d] =>
    match digitVal a, digitVal b, digitVal c, digitVal d with
    | some x, some y, some z, some w => some (((x * 10 + y) * 10 + z) * 10 + w)
    | _, _, _, _ => none
  | _ => none

/-- Gregorian leap-year rule used by `datetime`. -/
def isLeap (y : Nat) : Bool :=
  decide (y % 4 = 0) && (decide (y % 100 ≠ 0) || decide (y % 400 = 0))

/-- Days in a month, as validated by the `datetime` constructor. -/
def daysInMonth (y m : Nat) : Nat :=
  if m = 2 then (if isLeap y then 29 else 28)
  else if m = 4 ∨ m = 6 ∨ m = 9 ∨ m = 11 then 30 else 31

/-- Model of `datetime.strptime(s, "%Y-%m-%d")`: the three dash-separated
tokens must match `%Y`, `%m`, `%d`, and the resulting numbers must form a
valid `datetime` date (`MINYEAR <= year`, `day <= days in month`).
Returns `(year, month, day)`, or `none` for the `ValueError` cases. -/
def pyStrptimeYmd (s : Str) : Option (Nat × Nat × Nat) :=
  match pySplit ['-'] s with
  | [ys, ms, ds] =>
    match yearToken ys, monthToken ms, dayToken ds with
    | some y, some m, some d =>
      if 1 ≤ y ∧ d ≤ daysInMonth y m then some (y, m, d) else none
    | _, _, _ => none
  | _ => none

/-- Model of `MovieData.__init__` restricted to its observable result: either a
`sys.exit`/exception, or the list of target-date filenames.  The
`backfilled_days` and `file_date` parameters are the environment strings the
entry point passes.  The `isinstance(int(backfilled_days), int)` guard of the
source is omitted as vacuous (`int()` always returns an `int`); `int()` itself
raising on a malformed string is modelled by `pyInt` returning `none`. -/
def movieDataInit (backfilled_days file_date : Option Str) (today : Int) :
    Except PyExc (List Str) :=
  if pyTruthyOptStr backfilled_days then
    match pyInt (backfilled_days.getD []) with
    | none => .error .valueError
    | some k =>
      if k < 0 then .error (.systemExit "Backfilled days must be >= 0".data)
      else if k = 0 then .ok [createFilenameOfDate today]
      else .ok (createFilenames k.toNat today)
  else
    if pyTruthyOptStr file_date then
      match pyStrptimeYmd (file_date.getD []) with
      | none => .error .valueError
      | some (y, m, d) => .ok [createFilename d m y]
    else .error (.systemExit "You must supply either backfilled_days or a file_date".data)

/-- Python `str.strip()` (whitespace at both ends removed). -/
def pyStrip (s : Str) : Str :=
  ((s.dropWhile Char.isWhitespace).reverse.dropWhile Char.isWhitespace).reverse

/-- One JSON line of a daily export file, after `json.loads`: fields accessed
with `[]` in `_parse_movie_file` are required, fields accessed with `.get` are
optional. -/
structure RawMovie where
  id : Int
  original_title : Str
  popularity : Rat
  adult : Option Bool
  video : Option Bool
  deriving DecidableEq, Repr

/-- The row dict built by `MovieData._parse_movie_file`. -/
structure MovieListRecord where
  movie_id : Str
  movie_title : Str
  popularity : Rat
  ingest_date : Str
  adult : Option Bool
  video : Option Bool
  deriving DecidableEq, Repr

/-- Model of `MovieData._parse_movie_file(json_record, filename)`. -/
def parseMovieFile (data : RawMovie) (filename : Str) : MovieListRecord :=
  { movie_id := intChars data.id
    movie_title := pyStrip data.original_title
    popularity := data.popularity
    ingest_date := ingestDateFromFilename filename
    adult := data.adult
    video := data.video }

/-- Model of `MovieData._open_movie_file(filename)`: when no local file exists the movie
list is empty, otherwise every line of the (decompressed, already JSON-parsed)
file content is parsed.  `content` is the local file state after the download
step. -/
def openMovieFile (content : Option (List RawMovie)) (filename : Str) : List MovieListRecord :=
  match content with
  | none => []
  | some lines => lines.map (fun line => parseMovieFile line filename)

/-- Model of `MovieData._filter_popularity(pop)`:
`filter(lambda x: x['popularity'] >= pop, movies)`. -/
def filterPopularity (pop : Int) (movies : List MovieListRecord) : List MovieListRecord :=
  movies.filter (fun x => decide ((pop : Rat) ≤ x.popularity))

/-- The `if filter_pop: self._filter_popularity(filter_pop)` step of
`MovieData.fetch`: the filter runs only when the threshold is truthy
(supplied and non-zero). -/
def applyFilter (filter_pop : Option Int) (movies : List MovieListRecord) : List MovieListRecord :=
  if pyTruthyOptInt filter_pop then filterPopularity (filter_pop.getD 0) movies else movies

/-- Model of `MovieData._write_data` / `_write_batches`: the list of `engine.save`
payloads issued; a zero-record write issues none. -/
def writeData (batch_size : Nat) (movies : List MovieListRecord) : List (List MovieListRecord) :=
  if movies.length = 0 then [] else batches movies batch_size

/-- The per-date body of the `MovieData.fetch` loop after the download step:
open the local file, optionally filter by popularity, and write the data.
Returns the issued save payloads. -/
def processOneDate (filter_pop : Option Int) (batch_size : Nat)
    (content : Option (List RawMovie)) (filename : Str) : List (List MovieListRecord) :=
  writeData batch_size (applyFilter filter_pop (openMovieFile content filename))

/-- Outcome of one HTTP GET attempt. -/
inductive Outcome where
  | success
  | httpError
  | transportError
  deriving DecidableEq, Repr

/-- Result of `MovieData._make_movie_file_request`. -/
inductive FileReqResult where
  | fileWritten
  | noFile
  | exitMaxRetries
  deriving DecidableEq, Repr

/-- The retry loop of `MovieData._make_movie_file_request`: `oc i` is the
outcome of the attempt made with retry counter `i`.  Returns the result
together with the number of attempts performed.  `fuel` only bounds the
recursion; it starts at `retry + 1` which the loop never exhausts. -/
def fileReqGo (retry : Nat) (oc : Nat → Outcome) : Nat → Nat → FileReqResult × Nat
  | fuel + 1, retries =>
    match oc retries with
    | .success => (.fileWritten, retries + 1)
    | .httpError => (.noFile, retries + 1)
    | .transportError =>
      if retries + 1 ≤ retry then fileReqGo retry oc fuel (retries + 1)
      else (.exitMaxRetries, retries + 1)
  | 0, retries => (.exitMaxRetries, retries)

/-- Model of `MovieData._make_movie_file_request(filename, retry)` : result and number
of attempts, driven by the per-attempt outcome oracle `oc`. -/
def makeMovieFileRequest (retry : Nat) (oc : Nat → Outcome) : FileReqResult × Nat :=
  fileReqGo retry oc (retry + 1) 0

/-- Result of `MovieInfo._make_movie_api_request`: a response, or `None`. -/
inductive InfoReqResult where
  | gotResponse
  | noData
  deriving DecidableEq, Repr

/-- The retry loop of `MovieInfo._make_movie_api_request`: HTTP errors return
`None` immediately; other exceptions retry; exhausting retries returns `None`. -/
def infoReqGo (retry : Nat) (oc : Nat → Outcome) : Nat → Nat → InfoReqResult × Nat
  | fuel + 1, retries =>
    match oc retries with
    | .success => (.gotResponse, retries + 1)
    | .httpError => (.noData, retries + 1)
    | .transportError =>
      if retries + 1 ≤ retry then infoReqGo retry oc fuel (retries + 1)
      else (.noData, retries + 1)
  | 0, retries => (.noData, retries)

/-- Model of `MovieInfo._make_movie_api_request(movie_id, movie_url, retry)`. -/
def makeMovieApiRequest (retry : Nat) (oc : Nat → Outcome) : InfoReqResult × Nat :=
  infoReqGo retry oc (retry + 1) 0

/-- The `MovieData.fetch` loop over the target-date filenames: download
(`sys.exit` on exhausted retries aborts the whole run), open, filter, write,
remove.  `oc f` gives the outcomes of the download attempts for filename `f`
and `content f` the local file state after that download. -/
def movieDataFetch (retry : Nat) (filter_pop : Option Int) (batch_size : Nat)
    (oc : Str → Nat → Outcome) (content : Str → Option (List RawMovie)) :
    List Str → Except PyExc (List (List MovieListRecord))
  | [] => .ok []
  | f :: rest =>
    match makeMovieFileRequest retry (oc f) with
    | (.exitMaxRetries, _) => .error (.systemExit "Max retries reached".data)
    | _ =>
      match movieDataFetch retry filter_pop batch_size oc content rest with
      | .error e => .error e
      | .ok more => .ok (processOneDate filter_pop batch_size (content f) f ++ more)

/-- One element of the `genres` array of a detail response. -/
structure Genre where
  id : Option Int
  deriving DecidableEq, Repr

/-- Python `str(x)` for an optional integer: `str(None)` is `"None"`. -/
def pyStrOfOptInt : Option Int → Str
  | none => "None".data
  | some i => intChars i

/-- JSON body of a movie detail response, with the fields `_parse_response`
reads via `.get` (absent fields are `none`). -/
structure DetailJson where
  imdb_id : Option Str
  original_title : Option Str
  release_date : Option Str
  original_language : Option Str
  runtime : Option Rat
  poster_path : Option Str
  adult : Option Bool
  overview : Option Str
  genres : Option (List Genre)
  deriving DecidableEq, Repr

/-- The row dict built by `MovieInfo._parse_response`. -/
structure DetailRow where
  movie_id : Option Str
  imdb_id : Option Str
  movie_title : Option Str
  release_date : Option Str
  language : Option Str
  length : Option Rat
  poster_path : Option Str
  adult : Option Bool
  genres_id : Option (List Str)
  description : Option Str
  deriving DecidableEq, Repr

/-- Model of `MovieInfo._parse_response(raw)` for movie id `movieId` (`self.id`).
The `genres` handling compiles the dynamic sequence
`genres = json_data.get('genres'); if genres: genres = [str(g.get('id')) for g
in genres]; ... 'genres_id': genres or None` into one match: `None` stays
`None`, an empty list is not mapped and `[] or None` is `None`, and a
non-empty list is mapped (the map is non-empty, hence truthy). -/
def parseResponse (movieId : Str) (j : DetailJson) : DetailRow :=
  { movie_id := some movieId
    imdb_id := j.imdb_id
    movie_title := j.original_title
    release_date := j.release_date
    language := j.original_language
    length := j.runtime
    poster_path := j.poster_path
    adult := j.adult
    genres_id :=
      match j.genres with
      | none => none
      | some [] => none
      | some gs => some (gs.map (fun g => pyStrOfOptInt g.id))
    description := j.overview }

/-- Model of `MovieInfo._validate_date(date_text)` with the default format
`'%Y-%m-%d'`: returns `True` on a valid date and `None` on a `ValueError`;
`strptime(None, ...)` raises a `TypeError`, which the `except ValueError`
clause does not catch. -/
def validateDate : Option Str → Except PyExc (Option Bool)
  | none => .error .typeError
  | some s => if (pyStrptimeYmd s).isSome then .ok (some true) else .ok none

/-- Coercion of an empty-string value to `None` (`row.get(key) == ''`). -/
def emptyToNone : Option Str → Option Str
  | some [] => none
  | v => v

/-- Model of `MovieInfo._convert_empty_values(row)`: the per-key loop unrolled over the
ten fields.  `release_date` goes through `_validate_date` (kept only when that
returns a truthy value, and a `TypeError` on a `None` date propagates);
every other field is coerced from the empty string to `None`; the numeric,
boolean and list fields never compare equal to `''` and are unchanged. -/
def convertEmptyValues (row : DetailRow) : Except PyExc DetailRow :=
  match validateDate row.release_date with
  | .error e => .error e
  | .ok vd =>
    .ok { movie_id := emptyToNone row.movie_id
          imdb_id := emptyToNone row.imdb_id
          movie_title := emptyToNone row.movie_title
          release_date := if vd = some true then row.release_date else none
          language := emptyToNone row.language
          length := row.length
          poster_path := emptyToNone row.poster_path
          adult := row.adult
          genres_id := row.genres_id
          description := emptyToNone row.description }

/-- The `MovieInfo.fetch` loop over the candidate movie ids: request each
movie's details (a `None` result is skipped after a pause and the loop
continues), parse and normalize the response, and accumulate the cleaned rows
(`if cleaned_row:` is always true for the ten-key dict).  `oc m` gives the
outcomes of the attempts for movie `m` and `resp m` its JSON body on success. -/
def movieInfoFetch (retry : Nat) (oc : Str → Nat → Outcome) (resp : Str → DetailJson) :
    List Str → Except PyExc (List DetailRow)
  | [] => .ok []
  | m :: rest =>
    match makeMovieApiRequest retry (oc m) with
    | (.noData, _) => movieInfoFetch retry oc resp rest
    | (.gotResponse, _) =>
      match convertEmptyValues (parseResponse m (resp m)) with
      | .error e => .error e
      | .ok row =>
        match movieInfoFetch retry oc resp rest with
        | .error e => .error e
        | .ok more => .ok (row :: more)

/-- The characters that can occur after the `movie_ids_` marker in a derived
filename (proof helper). -/
def allowedTail : Str :=
  ['0', '1', '2', '3', '4', '5', '6', '7', '8', '9', '_', '.', 'j', 's', 'o', 'n', 'g', 'z']

/-- Two-digit zero-padded decimal rendering, from the spec's words (the
`MM`/`DD` fields of `movie_ids_MM_DD_YYYY.json.gz`). -/
def pad2Spec (n : Nat) : Str :=
  if n < 10 then '0' :: natChars n else natChars n

lemma pyRange_stop_le (start stop step : Nat) (h : stop ≤ start) :
    pyRange start stop step = [] := by
  rw [pyRange, dif_neg (by omega)]

lemma pyRange_shift (a b s c : Nat) :
    pyRange (a + c) (b + c) s = (pyRange a b s).map (· + c) := by
  conv_lhs => rw [pyRange]
  conv_rhs => rw [pyRange]
  by_cases h : 0 < s ∧ a < b
  · rw [dif_pos ⟨h.1, by omega⟩, dif_pos h]
    simp only [List.map_cons, List.cons.injEq, true_and]
    have harr : a + c + s = a + s + c := by omega
    rw [harr]
    exact pyRange_shift (a + s) b s c
  · rw [dif_neg (by omega), dif_neg h]
    simp
termination_by b - a
decreasing_by omega

lemma batches_nil (n : Nat) : batches ([] : List α) n = [] := by
  simp [batches, pyRange_stop_le]

lemma batches_step (l : List α) (n : Nat) (hn : 0 < n) (hl : l ≠ []) :
    batches l n = l.take n :: batches (l.drop n) n := by
  have hL : 0 < l.length := List.length_pos.mpr hl
  unfold batches
  rw [pyRange, dif_pos ⟨hn, hL⟩]
  simp only [List.map_cons, Nat.zero_add]
  congr 1
  · simp only [listSlice, List.drop_zero, Nat.sub_zero]
    rcases Nat.le_total n l.length with hc | hc
    · rw [Nat.min_eq_left hc]
    · rw [Nat.min_eq_right hc, List.take_of_length_le hc,
        List.take_of_length_le (by omega)]
  · by_cases hnl : l.length ≤ n
    · rw [pyRange_stop_le n l.length n hnl,
        pyRange_stop_le 0 (l.drop n).length n (by simp; omega)]
      simp
    · have hshift : pyRange n l.length n = (pyRange 0 (l.length - n) n).map (· + n) := by
        have hsa := pyRange_shift 0 (l.length - n) n n
        rw [Nat.zero_add, Nat.sub_add_cancel (by omega)] at hsa
        exact hsa
      rw [hshift, List.map_map]
      have hdlen : (l.drop n).length = l.length - n := by simp
      rw [hdlen]
      apply List.map_congr_left
      intro i _
      simp only [Function.comp_apply, listSlice, List.drop_drop]
      congr 1
      · omega
      · rw [Nat.add_comm]

lemma batches_eq_nil_iff (l : List α) (n : Nat) (hn : 0 < n) :
    batches l n = [] ↔ l = [] := by
  constructor
  · intro h
    by_contra hl
    rw [batches_step l n hn hl] at h
    simp at h
  · intro h
    rw [h]
    exact batches_nil n

lemma batches_flatten (l : List α) (n : Nat) (hn : 0 < n) :
    (batches l n).flatten = l := by
  by_cases hl : l = []
  · rw [hl, batches_nil]
    rfl
  · rw [batches_step l n hn hl]
    have hL : 0 < l.length := List.length_pos.mpr hl
    have hih := batches_flatten (l.drop n) n hn
    simp only [List.flatten_cons, hih, List.take_append_drop]
termination_by l.length
decreasing_by simp; omega

lemma mem_batches_mem (l : List α) (n : Nat) (c : List α) (x : α)
    (hc : c ∈ batches l n) (hx : x ∈ c) : x ∈ l := by
  unfold batches at hc
  obtain ⟨i, _, rfl⟩ := List.mem_map.mp hc
  unfold listSlice at hx
  exact List.mem_of_mem_drop (List.mem_of_mem_take hx)

lemma batches_dropLast_length (l : List α) (n : Nat) (hn : 0 < n) :
    ∀ c ∈ (batches l n).dropLast, c.length = n := by
  by_cases hl : l = []
  · rw [hl, batches_nil]
    simp
  · rw [batches_step l n hn hl]
    by_cases htl : batches (l.drop n) n = []
    · rw [htl]
      simp
    · have hL : 0 < l.length := List.length_pos.mpr hl
      have hrest : l.drop n ≠ [] := by
        intro hcon
        rw [hcon, batches_nil] at htl
        exact htl rfl
      have hlen : n < l.length := by
        by_contra hcon
        exact hrest (List.drop_eq_nil_of_le (by omega))
      intro c hc
      rw [List.dropLast_cons_of_ne_nil htl] at hc
      rcases List.mem_cons.mp hc with h | h
      · rw [h]
        simp
        omega
      · exact batches_dropLast_length (l.drop n) n hn c h
termination_by l.length
decreasing_by simp; omega

lemma batches_getLast_length (l : List α) (n : Nat) (hn : 0 < n) :
    ∀ c, (batches l n).getLast? = some c →
      c.length = if l.length % n = 0 then n else l.length % n := by
  by_cases hl : l = []
  · rw [hl, batches_nil]
    simp
  · rw [batches_step l n hn hl]
    have hL : 0 < l.length := List.length_pos.mpr hl
    by_cases htl : batches (l.drop n) n = []
    · have hrest : l.drop n = [] := (batches_eq_nil_iff _ n hn).mp htl
      have hle : l.length ≤ n := by
        have hd := List.drop_eq_nil_iff.mp hrest
        omega
      intro c hc
      rw [htl] at hc
      simp only [List.getLast?_singleton, Option.some.injEq] at hc
      subst hc
      rcases Nat.lt_or_ge l.length n with hlt | hge
      · have hmod : l.length % n = l.length := Nat.mod_eq_of_lt hlt
        rw [hmod, if_neg (by omega)]
        simp
        omega
      · have heq : l.length = n := by omega
        rw [heq]
        simp
        omega
    · intro c hc
      have hrest : l.drop n ≠ [] := by
        intro hcon
        rw [hcon, batches_nil] at htl
        exact htl rfl
      have hlen : n < l.length := by
        by_contra hcon
        exact hrest (List.drop_eq_nil_of_le (by omega))
      obtain ⟨b, B, hB⟩ := List.exists_cons_of_ne_nil htl
      rw [hB, List.getLast?_cons_cons, ← hB] at hc
      have hih := batches_getLast_length (l.drop n) n hn c hc
      have hdlen : (l.drop n).length = l.length - n := by simp
      rw [hdlen] at hih
      have hmod : (l.length - n) % n = l.length % n := by
        conv_rhs => rw [show l.length = (l.length - n) + n by omega]
        rw [Nat.add_mod_right]
      rw [hmod] at hih
      exact hih
termination_by l.length
decreasing_by simp; omega

/-- Claim C5: for every chunk size k > 0 and input list l, the batching utility
yields contiguous chunks whose concatenation is the input in order; every chunk
except possibly the last has length k, and the last has length `len l % k`
(or k when that remainder is 0). -/
theorem batches_spec (α : Type) (k : Nat) (hk : 0 < k) (l : List α) :
    (batches l k).flatten = l ∧
    (∀ c ∈ (batches l k).dropLast, c.length = k) ∧
    (∀ c, (batches l k).getLast? = some c →
      c.length = if l.length % k = 0 then k else l.length % k) :=
  ⟨batches_flatten l k hk, batches_dropLast_length l k hk, batches_getLast_length l k hk⟩

/-- Witness for C5 at k = 3 and a concrete 7-element list. -/
theorem batches_spec_witness :
    0 < 3 ∧
    ((batches [10, 20, 30, 40, 50, 60, 70] 3).flatten = [10, 20, 30, 40, 50, 60, 70] ∧
    (∀ c ∈ (batches [10, 20, 30, 40, 50, 60, 70] 3).dropLast, c.length = 3) ∧
    (∀ c, (batches [10, 20, 30, 40, 50, 60, 70] 3).getLast? = some c →
      c.length = if ([10, 20, 30, 40, 50, 60, 70] : List Nat).length % 3 = 0 then 3
        else ([10, 20, 30, 40, 50, 60, 70] : List Nat).length % 3)) :=
  ⟨by decide, batches_spec Nat 3 (by decide) [10, 20, 30, 40, 50, 60, 70]⟩

lemma digitChar_mem_pyDigits (d : Nat) : digitChar d ∈ pyDigits := by
  unfold digitChar pyDigits
  split <;> decide

lemma natChars_subset_pyDigits (n : Nat) : ∀ c ∈ natChars n, c ∈ pyDigits := by
  rw [natChars]
  by_cases h : n < 10
  · rw [if_pos h]
    intro c hc
    rw [List.mem_singleton] at hc
    rw [hc]
    exact digitChar_mem_pyDigits n
  · rw [if_neg h]
    intro c hc
    rcases List.mem_append.mp hc with h1 | h1
    · exact natChars_subset_pyDigits (n / 10) c h1
    · rw [List.mem_singleton] at h1
      rw [h1]
      exact digitChar_mem_pyDigits (n % 10)
termination_by n
decreasing_by omega

lemma natChars_ne_nil (n : Nat) : natChars n ≠ [] := by
  rw [natChars]
  by_cases h : n < 10
  · rw [if_pos h]
    simp
  · rw [if_neg h]
    simp

lemma natChars_length_eq_one_iff (n : Nat) : (natChars n).length = 1 ↔ n < 10 := by
  rw [natChars]
  by_cases h : n < 10
  · rw [if_pos h]
    simpa using h
  · rw [if_neg h]
    have hne := natChars_ne_nil (n / 10)
    have hlen : 0 < (natChars (n / 10)).length := List.length_pos.mpr hne
    simp only [List.length_append, List.length_singleton]
    omega

lemma digitVal_digitChar (d : Nat) (hd : d < 10) : digitVal (digitChar d) = some d := by
  interval_cases d <;> decide

lemma digitsGo_natChars (n : Nat) :
    ∀ acc, digitsGo (natChars n) acc = some (acc * 10 ^ (natChars n).length + n) := by
  intro acc
  rw [natChars]
  by_cases h : n < 10
  · rw [if_pos h]
    simp only [digitsGo, digitVal_digitChar n h]
    simp
  · rw [if_neg h]
    have hsplit : ∀ (s t : Str) (a : Nat), digitsGo (s ++ t) a =
        match digitsGo s a with
        | some m => digitsGo t m
        | none => none := by
      intro s
      induction s with
      | nil => intro t a; rfl
      | cons c s ih =>
        intro t a
        simp only [List.cons_append, digitsGo]
        cases digitVal c with
        | none => rfl
        | some d => exact ih t (a * 10 + d)
    rw [hsplit]
    have hih := digitsGo_natChars (n / 10) acc
    rw [hih]
    simp only [digitsGo, digitVal_digitChar (n % 10) (by omega)]
    simp only [List.length_append, List.length_singleton]
    congr 1
    have hm : acc * 10 ^ ((natChars (n / 10)).length + 1) =
        acc * 10 ^ (natChars (n / 10)).length * 10 := by
      ring
    rw [hm]
    omega
termination_by n
decreasing_by omega

lemma natChars_head_digit (n : Nat) :
    ∃ c t, natChars n = c :: t ∧ c ∈ pyDigits := by
  cases hc : natChars n with
  | nil => exact absurd hc (natChars_ne_nil n)
  | cons c t =>
    refine ⟨c, t, rfl, ?_⟩
    have := natChars_subset_pyDigits n c
    rw [hc] at this
    exact this (List.mem_cons_self c t)

lemma digitsToNat_natChars (n : Nat) : digitsToNat (natChars n) = some n := by
  rw [digitsToNat, if_neg (natChars_ne_nil n), digitsGo_natChars n 0]
  simp

lemma pyInt_natChars (n : Nat) : pyInt (natChars n) = some (n : Int) := by
  obtain ⟨c, t, hct, hcd⟩ := natChars_head_digit n
  rw [pyInt, hct]
  have hcd2 : c ∈ ['0', '1', '2', '3', '4', '5', '6', '7', '8', '9'] := hcd
  have hcm : c ≠ '-' := by
    fin_cases hcd2 <;> decide
  rw [if_neg (by simp [hcm]), ← hct, digitsToNat_natChars]
  rfl

lemma pyInt_neg_natChars (n : Nat) : pyInt ('-' :: natChars n) = some (-(n : Int)) := by
  simp [pyInt, digitsToNat_natChars]

lemma splitGo_not_mem (c0 : Char) (sep s cur : Str) (h : c0 ∉ s) :
    splitGo c0 sep s cur = [cur.reverse ++ s] := by
  induction s generalizing cur with
  | nil => simp [splitGo]
  | cons c rest ih =>
    have hne : c0 ≠ c := fun hc => h (hc ▸ List.mem_cons_self c rest)
    have hpre : ¬ (c0 :: sep).isPrefixOf (c :: rest) = true := by
      intro hp
      obtain ⟨t, ht⟩ := List.isPrefixOf_iff_prefix.mp hp
      simp only [List.cons_append, List.cons.injEq] at ht
      exact hne ht.1
    rw [splitGo, if_neg hpre, ih (c :: cur) (fun hm => h (List.mem_cons_of_mem c hm))]
    simp

lemma splitGo_boundary (c0 : Char) (sep a b cur : Str) (h : c0 ∉ a) :
    splitGo c0 sep (a ++ (c0 :: sep) ++ b) cur = (cur.reverse ++ a) :: splitGo c0 sep b [] := by
  induction a generalizing cur with
  | nil =>
    simp only [List.nil_append, List.cons_append]
    rw [splitGo, if_pos]
    · simp only [List.length_cons, List.drop_succ_cons, List.drop_left]
      simp
    · exact List.isPrefixOf_iff_prefix.mpr ⟨b, by simp⟩
  | cons x a ih =>
    have hne : c0 ≠ x := fun hc => h (hc ▸ List.mem_cons_self x a)
    have hpre : ¬ (c0 :: sep).isPrefixOf (x :: (a ++ (c0 :: sep) ++ b)) = true := by
      intro hp
      obtain ⟨t, ht⟩ := List.isPrefixOf_iff_prefix.mp hp
      simp only [List.cons_append, List.cons.injEq] at ht
      exact hne ht.1
    simp only [List.cons_append]
    rw [splitGo]
    simp only [List.cons_append] at hpre
    rw [if_neg hpre]
    rw [show x :: (a ++ (c0 :: sep) ++ b) = (x :: a) ++ (c0 :: sep) ++ b by simp] at hpre
    have hih := ih (x :: cur) (fun hm => h (List.mem_cons_of_mem x hm))
    simp only [List.cons_append] at hih
    rw [hih]
    simp

lemma fileReqGo_transport (retry : Nat) (oc : Nat → Outcome)
    (h : ∀ i, oc i = .transportError) :
    ∀ fuel retries, fuel + retries = retry + 1 →
      fileReqGo retry oc fuel retries = (.exitMaxRetries, retry + 1) := by
  intro fuel
  induction fuel with
  | zero =>
    intro retries hr
    rw [fileReqGo]
    have h2 : retries = retry + 1 := by omega
    rw [h2]
  | succ fuel ih =>
    intro retries hr
    rw [fileReqGo, h retries]
    by_cases hc : retries + 1 ≤ retry
    · rw [if_pos hc]
      exact ih (retries + 1) (by omega)
    · rw [if_neg hc]
      have h2 : retries = retry := by omega
      rw [h2]

lemma infoReqGo_transport (retry : Nat) (oc : Nat → Outcome)
    (h : ∀ i, oc i = .transportError) :
    ∀ fuel retries, fuel + retries = retry + 1 →
      infoReqGo retry oc fuel retries = (.noData, retry + 1) := by
  intro fuel
  induction fuel with
  | zero =>
    intro retries hr
    rw [infoReqGo]
    have h2 : retries = retry + 1 := by omega
    rw [h2]
  | succ fuel ih =>
    intro retries hr
    rw [infoReqGo, h retries]
    by_cases hc : retries + 1 ≤ retry
    · rw [if_pos hc]
      exact ih (retries + 1) (by omega)
    · rw [if_neg hc]
      have h2 : retries = retry := by omega
      rw [h2]

lemma makeMovieFileRequest_http (retry : Nat) (oc : Nat → Outcome)
    (h : oc 0 = .httpError) : makeMovieFileRequest retry oc = (.noFile, 1) := by
  rw [makeMovieFileRequest, fileReqGo, h]

lemma makeMovieFileRequest_transport (retry : Nat) (oc : Nat → Outcome)
    (h : ∀ i, oc i = .transportError) :
    makeMovieFileRequest retry oc = (.exitMaxRetries, retry + 1) :=
  fileReqGo_transport retry oc h (retry + 1) 0 (by omega)

lemma makeMovieApiRequest_http (retry : Nat) (oc : Nat → Outcome)
    (h : oc 0 = .httpError) : makeMovieApiRequest retry oc = (.noData, 1) := by
  rw [makeMovieApiRequest, infoReqGo, h]

lemma makeMovieApiRequest_transport (retry : Nat) (oc : Nat → Outcome)
    (h : ∀ i, oc i = .transportError) :
    makeMovieApiRequest retry oc = (.noData, retry + 1) :=
  infoReqGo_transport retry oc h (retry + 1) 0 (by omega)

/-- Claim C4: for every configured retry count r, an HTTP-error response stops
a fetch after exactly one attempt with no retries, while persistent transport
errors cause exactly r+1 attempts; exhausted retries terminate the whole run
for the list-file download (`sys.exit("Max retries reached")`) but only skip
the affected movie for a detail fetch, with the pipeline continuing. -/
theorem retry_policy_spec (r : Nat) :
    (∀ oc, oc 0 = .httpError → makeMovieFileRequest r oc = (.noFile, 1)) ∧
    (∀ oc, (∀ i, oc i = .transportError) →
      makeMovieFileRequest r oc = (.exitMaxRetries, r + 1)) ∧
    (∀ oc, oc 0 = .httpError → makeMovieApiRequest r oc = (.noData, 1)) ∧
    (∀ oc, (∀ i, oc i = .transportError) →
      makeMovieApiRequest r oc = (.noData, r + 1)) ∧
    (∀ filter_pop batch_size oc content f rest, (∀ i, oc f i = .transportError) →
      movieDataFetch r filter_pop batch_size oc content (f :: rest) =
        .error (.systemExit "Max retries reached".data)) ∧
    (∀ oc resp m rest, (∀ i, oc m i = .transportError) →
      movieInfoFetch r oc resp (m :: rest) = movieInfoFetch r oc resp rest) := by
  refine ⟨makeMovieFileRequest_http r, makeMovieFileRequest_transport r,
    makeMovieApiRequest_http r, makeMovieApiRequest_transport r, ?_, ?_⟩
  · intro filter_pop batch_size oc content f rest h
    rw [movieDataFetch, makeMovieFileRequest_transport r (oc f) h]
  · intro oc resp m rest h
    rw [movieInfoFetch, makeMovieApiRequest_transport r (oc m) h]

/-- Witness for C4 at retry count 2, all-transport-error and first-attempt-HTTP
oracles, and a singleton work list. -/
theorem retry_policy_spec_witness :
    ((fun _ : Nat => Outcome.httpError) 0 = .httpError →
      makeMovieFileRequest 2 (fun _ => .httpError) = (.noFile, 1)) ∧
    ((∀ i : Nat, (fun _ : Nat => Outcome.transportError) i = .transportError) →
      makeMovieFileRequest 2 (fun _ => .transportError) = (.exitMaxRetries, 3)) ∧
    ((∀ i : Nat, (fun _ : Nat => Outcome.transportError) i = .transportError) →
      makeMovieApiRequest 2 (fun _ => .transportError) = (.noData, 3)) ∧
    (movieDataFetch 2 none 10 (fun _ _ => .transportError) (fun _ => none)
      ["f".data] = .error (.systemExit "Max retries reached".data)) ∧
    (movieInfoFetch 2 (fun _ _ => .transportError)
        (fun _ => ⟨none, none, none, none, none, none, none, none, none⟩) ["5".data] =
      movieInfoFetch 2 (fun _ _ => .transportError)
        (fun _ => ⟨none, none, none, none, none, none, none, none, none⟩) []) := by
  refine ⟨(retry_policy_spec 2).1 (fun _ => .httpError),
    (retry_policy_spec 2).2.1 (fun _ => .transportError),
    (retry_policy_spec 2).2.2.2.1 (fun _ => .transportError), ?_, ?_⟩
  · exact (retry_policy_spec 2).2.2.2.2.1 none 10 (fun _ _ => .transportError)
      (fun _ => none) "f".data [] (fun _ => rfl)
  · exact (retry_policy_spec 2).2.2.2.2.2 (fun _ _ => .transportError)
      (fun _ => ⟨none, none, none, none, none, none, none, none, none⟩) "5".data []
      (fun _ => rfl)

lemma pyTruthyOptStr_natChars (n : Nat) : pyTruthyOptStr (some (natChars n)) = true := by
  simp [pyTruthyOptStr, List.isEmpty_iff, natChars_ne_nil n]

lemma movieDataInit_natChars (N : Nat) (fd : Option Str) (today : Int) :
    movieDataInit (some (natChars N)) fd today =
      .ok ((List.range (N + 1)).map (fun (k : Nat) => createFilenameOfDate (today - (k : Int)))) := by
  rw [movieDataInit, pyTruthyOptStr_natChars N, if_pos rfl, Option.getD_some, pyInt_natChars N]
  simp only
  rw [if_neg (by omega)]
  by_cases hz : N = 0
  · subst hz
    rw [if_pos (by norm_num)]
    rw [show List.range 1 = [0] from rfl]
    simp
  · rw [if_neg (by exact_mod_cast hz)]
    have ht : ((N : Int)).toNat = N := by omega
    rw [createFilenames, ht]

/-- Claim C2: for every non-negative integer N supplied as backfill depth (and
no target date), the ingester produces exactly N+1 target-date filenames, the
first for the run date and the k-th for exactly k days earlier. -/
theorem backfill_dates_spec (N : Nat) (today : Int) :
    movieDataInit (some (natChars N)) none today =
      .ok ((List.range (N + 1)).map (fun (k : Nat) => createFilenameOfDate (today - (k : Int)))) ∧
    ((List.range (N + 1)).map (fun (k : Nat) => createFilenameOfDate (today - (k : Int)))).length =
      N + 1 ∧
    ((List.range (N + 1)).map (fun (k : Nat) => createFilenameOfDate (today - (k : Int)))).head? =
      some (createFilenameOfDate today) := by
  refine ⟨movieDataInit_natChars N none today,
    by rw [List.length_map, List.length_range], ?_⟩
  rw [List.range_succ_eq_map]
  simp

/-- Claim C7: construction with neither backfill-depth nor target-date exits
the process with a fatal configuration message, as does a negative
backfill-depth. -/
theorem fail_fast_spec :
    (∀ today, movieDataInit none none today =
      .error (.systemExit "You must supply either backfilled_days or a file_date".data)) ∧
    (∀ today fd n, 0 < n →
      movieDataInit (some ('-' :: natChars n)) fd today =
        .error (.systemExit "Backfilled days must be >= 0".data)) := by
  constructor
  · intro today
    rfl
  · intro today fd n hn
    have htr : pyTruthyOptStr (some ('-' :: natChars n)) = true := rfl
    rw [movieDataInit, htr, if_pos rfl, Option.getD_some, pyInt_neg_natChars n]
    simp only
    rw [if_pos (by omega)]

/-- Witness for C7 at n = 1 (backfill-depth "-1"). -/
theorem fail_fast_spec_witness :
    (movieDataInit none none 0 =
      .error (.systemExit "You must supply either backfilled_days or a file_date".data)) ∧
    0 < 1 ∧
    movieDataInit (some ('-' :: natChars 1)) none 0 =
      .error (.systemExit "Backfilled days must be >= 0".data) :=
  ⟨fail_fast_spec.1 0, by decide, fail_fast_spec.2 0 none 1 (by decide)⟩

/-- Claim C9 (counterexample): with the truthy backfill-depth "-1" and a
target date both supplied, construction does raise an error
(`sys.exit("Backfilled days must be >= 0")`), contradicting the claim that no
error is raised whenever the backfill-depth is truthy. -/
theorem both_supplied_counterexample :
    pyTruthyOptStr (some "-1".data) = true ∧
    movieDataInit (some "-1".data) (some "2020-01-01".data) 0 =
      .error (.systemExit "Backfilled days must be >= 0".data) := by
  constructor
  · rfl
  · rfl

/-- Claim C9 (amended): when both a truthy backfill-depth and a target-date
are supplied, the outcome is decided by the backfill-depth alone and the
target-date is silently ignored; in particular no error is raised when the
backfill-depth parses as a non-negative integer. -/
theorem both_supplied_spec :
    (∀ s fd today, s ≠ [] →
      movieDataInit (some s) (some fd) today = movieDataInit (some s) none today) ∧
    (∀ s k fd today, s ≠ [] → pyInt s = some k → 0 ≤ k →
      ∃ L, movieDataInit (some s) (some fd) today = .ok L) := by
  constructor
  · intro s fd today hs
    have htr : pyTruthyOptStr (some s) = true := by
      simp [pyTruthyOptStr, List.isEmpty_iff, hs]
    rw [movieDataInit, movieDataInit, htr, if_pos rfl, if_pos rfl]
  · intro s k fd today hs hk hk0
    have htr : pyTruthyOptStr (some s) = true := by
      simp [pyTruthyOptStr, List.isEmpty_iff, hs]
    rw [movieDataInit, htr, if_pos rfl, Option.getD_some, hk]
    simp only
    rw [if_neg (by omega)]
    by_cases hz : k = 0
    · rw [if_pos hz]
      exact ⟨_, rfl⟩
    · rw [if_neg hz]
      exact ⟨_, rfl⟩

/-- Witness for C9 (amended) at backfill-depth "2" and target date "x". -/
theorem both_supplied_spec_witness :
    (natChars 2 ≠ [] ∧
      movieDataInit (some (natChars 2)) (some "x".data) 0 =
        movieDataInit (some (natChars 2)) none 0) ∧
    (pyInt (natChars 2) = some 2 ∧ (0 : Int) ≤ 2 ∧
      ∃ L, movieDataInit (some (natChars 2)) (some "x".data) 0 = .ok L) :=
  ⟨⟨natChars_ne_nil 2, both_supplied_spec.1 (natChars 2) "x".data 0 (natChars_ne_nil 2)⟩,
    ⟨by simpa using pyInt_natChars 2, by decide,
      both_supplied_spec.2 (natChars 2) 2 "x".data 0 (natChars_ne_nil 2)
        (by simpa using pyInt_natChars 2) (by decide)⟩⟩

/-- Claim C3 (counterexample): a supplied popularity threshold of 0 is falsy,
so the filter step is skipped and a record with negative popularity is still
passed to the write step, contradicting the claim for threshold T = 0. -/
theorem popularity_filter_counterexample :
    applyFilter (some 0) [⟨['1'], ['t'], -1, [], none, none⟩] =
      [(⟨['1'], ['t'], -1, [], none, none⟩ : MovieListRecord)] ∧
    ¬ ((0 : Rat) ≤ (⟨['1'], ['t'], -1, [], none, none⟩ : MovieListRecord).popularity) := by
  constructor
  · rfl
  · decide

lemma applyFilter_truthy (t : Int) (ht : t ≠ 0) (S : List MovieListRecord) :
    applyFilter (some t) S = S.filter (fun x => decide ((t : Rat) ≤ x.popularity)) := by
  rw [applyFilter]
  have htr : pyTruthyOptInt (some t) = true := by simp [pyTruthyOptInt, ht]
  rw [htr, if_pos rfl, Option.getD_some]
  rfl

/-- Claim C3 (amended): for every supplied non-zero threshold T the records
passed to the write step are exactly the members of R with popularity at
least T, in their original relative order (a `filter`), and every record in
every persisted batch then has popularity at least T.  (A supplied threshold
of 0 is falsy in `if filter_pop:` and disables filtering, which is what the
counterexample exhibits.) -/
theorem popularity_filter_spec (t : Int) (ht : t ≠ 0) (R : List MovieListRecord)
    (batch_size : Nat) (content : Option (List RawMovie)) (f : Str) :
    applyFilter (some t) R = R.filter (fun x => decide ((t : Rat) ≤ x.popularity)) ∧
    (∀ rows ∈ processOneDate (some t) batch_size content f, ∀ r ∈ rows,
      (t : Rat) ≤ r.popularity) := by
  refine ⟨applyFilter_truthy t ht R, ?_⟩
  intro rows hrows r hr
  unfold processOneDate writeData at hrows
  by_cases hz : (applyFilter (some t) (openMovieFile content f)).length = 0
  · rw [if_pos hz] at hrows
    simp at hrows
  · rw [if_neg hz] at hrows
    have hmem := mem_batches_mem _ batch_size rows r hrows hr
    rw [applyFilter_truthy t ht] at hmem
    have hf := List.of_mem_filter hmem
    simpa using hf

/-- Witness for C3 (amended) at threshold 15, a two-record list, batch size 10
and an absent local file. -/
theorem popularity_filter_spec_witness :
    (15 : Int) ≠ 0 ∧
    (applyFilter (some 15) [⟨['1'], ['t'], 20, [], none, none⟩, ⟨['2'], ['u'], 3, [], none, none⟩] =
      List.filter (fun x => decide ((15 : Rat) ≤ x.popularity))
        [⟨['1'], ['t'], 20, [], none, none⟩, ⟨['2'], ['u'], 3, [], none, none⟩] ∧
    (∀ rows ∈ processOneDate (some 15) 10 none ['f'], ∀ r ∈ rows,
      (15 : Rat) ≤ r.popularity)) :=
  ⟨by decide, popularity_filter_spec 15 (by decide)
    [⟨['1'], ['t'], 20, [], none, none⟩, ⟨['2'], ['u'], 3, [], none, none⟩] 10 none ['f']⟩

/-- Claim C8: a target date whose download leaves no local file is treated as
an empty movie list, the write step issues no save calls, and the fetch loop
continues non-fatally with the remaining dates (provided the download itself
did not exit on exhausted retries). -/
theorem absent_file_spec (filter_pop : Option Int) (batch_size retry : Nat)
    (f : Str) (content : Str → Option (List RawMovie)) (oc : Str → Nat → Outcome)
    (rest : List Str) (h : content f = none)
    (hnx : (makeMovieFileRequest retry (oc f)).1 ≠ .exitMaxRetries) :
    openMovieFile (content f) f = [] ∧
    processOneDate filter_pop batch_size (content f) f = [] ∧
    movieDataFetch retry filter_pop batch_size oc content (f :: rest) =
      movieDataFetch retry filter_pop batch_size oc content rest := by
  have h1 : openMovieFile (content f) f = [] := by
    rw [h]
    rfl
  have h2 : processOneDate filter_pop batch_size (content f) f = [] := by
    unfold processOneDate
    rw [h1]
    have ha : applyFilter filter_pop [] = [] := by
      unfold applyFilter filterPopularity
      split <;> simp
    rw [ha]
    rfl
  refine ⟨h1, h2, ?_⟩
  rw [movieDataFetch]
  cases hreq : makeMovieFileRequest retry (oc f) with
  | mk res att =>
    cases res with
    | exitMaxRetries =>
      exact absurd (by rw [hreq]) hnx
    | fileWritten =>
      simp only [h2]
      cases movieDataFetch retry filter_pop batch_size oc content rest with
      | error e => rfl
      | ok more => simp
    | noFile =>
      simp only [h2]
      cases movieDataFetch retry filter_pop batch_size oc content rest with
      | error e => rfl
      | ok more => simp

/-- Witness for C8: absent file for "f", a succeeding download oracle, one
further date in the list. -/
theorem absent_file_spec_witness :
    ((fun _ : Str => (none : Option (List RawMovie))) ['f'] = none) ∧
    ((makeMovieFileRequest 3 ((fun _ _ => .success) ['f'])).1 ≠ .exitMaxRetries) ∧
    (openMovieFile ((fun _ : Str => (none : Option (List RawMovie))) ['f']) ['f'] = [] ∧
    processOneDate (some 15) 10 ((fun _ : Str => (none : Option (List RawMovie))) ['f']) ['f'] = [] ∧
    movieDataFetch 3 (some 15) 10 (fun _ _ => .success) (fun _ => none) [['f'], ['g']] =
      movieDataFetch 3 (some 15) 10 (fun _ _ => .success) (fun _ => none) [['g']]) :=
  ⟨rfl, by decide,
    absent_file_spec (some 15) 10 3 ['f'] (fun _ => none) (fun _ _ => .success) [['g']]
      rfl (by decide)⟩

/-- Claim C10: the parsed detail record's genres_id is null exactly when the
response's genres field is absent or an empty list, and otherwise is the list
of the genres' id values each converted to a string. -/
theorem genres_id_spec (mid : Str) (j : DetailJson) :
    ((parseResponse mid j).genres_id = none ↔ j.genres = none ∨ j.genres = some []) ∧
    (∀ gs, j.genres = some gs → gs ≠ [] →
      (parseResponse mid j).genres_id = some (gs.map (fun g => pyStrOfOptInt g.id))) := by
  constructor
  · cases hg : j.genres with
    | none => simp [parseResponse, hg]
    | some gs =>
      cases gs with
      | nil => simp [parseResponse, hg]
      | cons g grest => simp [parseResponse, hg]
  · intro gs hgs hne
    cases gs with
    | nil => exact absurd rfl hne
    | cons g grest => simp [parseResponse, hgs]

/-- Witness for C10 at a response with two genres (ids 18 and absent). -/
theorem genres_id_spec_witness :
    ((⟨none, none, none, none, none, none, none, none,
        some [⟨some 18⟩, ⟨none⟩]⟩ : DetailJson).genres = some [⟨some 18⟩, ⟨none⟩]) ∧
    ([(⟨some 18⟩ : Genre), ⟨none⟩] ≠ []) ∧
    (parseResponse ['5'] ⟨none, none, none, none, none, none, none, none,
        some [⟨some 18⟩, ⟨none⟩]⟩).genres_id =
      some ([(⟨some 18⟩ : Genre), ⟨none⟩].map (fun g => pyStrOfOptInt g.id)) :=
  ⟨rfl, by decide,
    (genres_id_spec ['5'] ⟨none, none, none, none, none, none, none, none,
        some [⟨some 18⟩, ⟨none⟩]⟩).2 [⟨some 18⟩, ⟨none⟩] rfl (by decide)⟩

/-- Claim C1 (code bug): normalizing a parsed detail record whose
release_date is absent does not set the date to null and keep the record, as
the spec requires; `_validate_date(None)` calls `strptime(None, ...)`, which
raises a `TypeError` that the `except ValueError` clause does not catch, so
the enrichment run crashes.  Evaluation of the embedded code at such a
record. -/
theorem normalize_missing_release_date :
    convertEmptyValues (parseResponse "550".data
      ⟨some "tt0137523".data, some "Fight Club".data, none, some "en".data,
        some 139, some [], some false, some [], some [⟨some 18⟩]⟩) =
      .error .typeError := rfl

lemma movie_ids_chars : "movie_ids_".data = ['m', 'o', 'v', 'i', 'e', '_', 'i', 'd', 's', '_'] := rfl

lemma json_gz_chars : ".json.gz".data = ['.', 'j', 's', 'o', 'n', '.', 'g', 'z'] := rfl

lemma underscore_chars : "_".data = ['_'] := rfl

lemma mem_zeroPad2 {c : Char} {s : Str} (h : c ∈ zeroPad2 s) : c = '0' ∨ c ∈ s := by
  unfold zeroPad2 at h
  split at h
  · exact List.mem_cons.mp h
  · exact Or.inr h

lemma zeroPad2_natChars_digits (n : Nat) : ∀ c ∈ zeroPad2 (natChars n), c ∈ pyDigits := by
  intro c hc
  rcases mem_zeroPad2 hc with h | h
  · rw [h]
    decide
  · exact natChars_subset_pyDigits n c h

lemma pyDigits_subset_allowed : ∀ c ∈ pyDigits, c ∈ allowedTail := by decide

lemma tail_mem_allowed (m d y : Nat) :
    ∀ c ∈ zeroPad2 (natChars m) ++
      '_' :: (zeroPad2 (natChars d) ++ '_' :: (natChars y ++ ".json.gz".data)),
      c ∈ allowedTail := by
  intro c hc
  rw [json_gz_chars] at hc
  simp only [List.mem_append, List.mem_cons] at hc
  rcases hc with h | h | h | h | h
  · exact pyDigits_subset_allowed c (zeroPad2_natChars_digits m c h)
  · rw [h]; decide
  · exact pyDigits_subset_allowed c (zeroPad2_natChars_digits d c h)
  · rw [h]; decide
  · rcases h with h | h
    · exact pyDigits_subset_allowed c (natChars_subset_pyDigits y c h)
    · have h2 : c ∈ (['.', 'j', 's', 'o', 'n', '.', 'g', 'z'] : Str) := by
        simpa using h
      fin_cases h2 <;> decide

lemma no_underscore_digits (n : Nat) : '_' ∉ zeroPad2 (natChars n) := by
  intro h
  have := pyDigits_subset_allowed '_' (zeroPad2_natChars_digits n '_' h)
  have h2 := zeroPad2_natChars_digits n '_' h
  revert h2
  decide

lemma no_underscore_natChars (n : Nat) : '_' ∉ natChars n := by
  intro h
  have h2 := natChars_subset_pyDigits n '_' h
  revert h2
  decide

lemma no_dot_digits (n : Nat) : '.' ∉ zeroPad2 (natChars n) := by
  intro h
  have h2 := zeroPad2_natChars_digits n '.' h
  revert h2
  decide

lemma no_dot_natChars (n : Nat) : '.' ∉ natChars n := by
  intro h
  have h2 := natChars_subset_pyDigits n '.' h
  revert h2
  decide

lemma dateFromFilename_createFilename (d m y : Nat) :
    dateFromFilename (createFilename d m y) =
      [zeroPad2 (natChars m), zeroPad2 (natChars d), natChars y] := by
  have hnm : 'm' ∉ zeroPad2 (natChars m) ++
      '_' :: (zeroPad2 (natChars d) ++ '_' :: (natChars y ++ ".json.gz".data)) := by
    intro h
    have h2 := tail_mem_allowed m d y 'm' h
    revert h2
    decide
  have hnd : '.' ∉ zeroPad2 (natChars m) ++
      '_' :: (zeroPad2 (natChars d) ++ '_' :: natChars y) := by
    intro h
    simp only [List.mem_append, List.mem_cons] at h
    rcases h with h | h | h | h
    · exact no_dot_digits m h
    · exact absurd h (by decide)
    · exact no_dot_digits d h
    · rcases h with h | h
      · exact absurd h (by decide)
      · exact no_dot_natChars y h
  -- Step 1: split on "movie_ids_" gives [[], tail]; element 1 is the tail.
  have hstep1 : pySplit "movie_ids_".data (createFilename d m y) =
      [[], zeroPad2 (natChars m) ++
        '_' :: (zeroPad2 (natChars d) ++ '_' :: (natChars y ++ ".json.gz".data))] := by
    rw [movie_ids_chars]
    show splitGo 'm' ['o', 'v', 'i', 'e', '_', 'i', 'd', 's', '_'] _ [] = _
    have hb := splitGo_boundary 'm' ['o', 'v', 'i', 'e', '_', 'i', 'd', 's', '_'] []
      (zeroPad2 (natChars m) ++
        '_' :: (zeroPad2 (natChars d) ++ '_' :: (natChars y ++ ".json.gz".data))) []
      (by simp)
    have hnotm := splitGo_not_mem 'm' ['o', 'v', 'i', 'e', '_', 'i', 'd', 's', '_'] _ [] hnm
    simp only [createFilename, movie_ids_chars, json_gz_chars, List.reverse_nil,
      List.nil_append, List.append_nil, List.append_assoc, List.cons_append] at hb hnotm ⊢
    rw [hb, hnotm]
  -- Step 2: split the tail on ".json.gz"; element 0 is the date body.
  have hstep2 : pySplit ".json.gz".data
      (zeroPad2 (natChars m) ++
        '_' :: (zeroPad2 (natChars d) ++ '_' :: (natChars y ++ ".json.gz".data))) =
      [zeroPad2 (natChars m) ++ '_' :: (zeroPad2 (natChars d) ++ '_' :: natChars y), []] := by
    rw [json_gz_chars]
    show splitGo '.' ['j', 's', 'o', 'n', '.', 'g', 'z'] _ [] = _
    have hb := splitGo_boundary '.' ['j', 's', 'o', 'n', '.', 'g', 'z']
      (zeroPad2 (natChars m) ++ '_' :: (zeroPad2 (natChars d) ++ '_' :: natChars y)) [] []
      hnd
    have hnil := splitGo_not_mem '.' ['j', 's', 'o', 'n', '.', 'g', 'z'] [] []
      (List.not_mem_nil '.')
    simp only [List.reverse_nil, List.nil_append, List.append_nil, List.append_assoc,
      List.cons_append] at hb hnil ⊢
    rw [hb, hnil]
  -- Step 3: split the date body on "_" gives the three tokens.
  have hstep3 : pySplit "_".data
      (zeroPad2 (natChars m) ++ '_' :: (zeroPad2 (natChars d) ++ '_' :: natChars y)) =
      [zeroPad2 (natChars m), zeroPad2 (natChars d), natChars y] := by
    rw [underscore_chars]
    show splitGo '_' [] _ [] = _
    have hb1 := splitGo_boundary '_' [] (zeroPad2 (natChars m))
      (zeroPad2 (natChars d) ++ '_' :: natChars y) [] (no_underscore_digits m)
    have hb2 := splitGo_boundary '_' [] (zeroPad2 (natChars d)) (natChars y) []
      (no_underscore_digits d)
    have hb3 := splitGo_not_mem '_' [] (natChars y) [] (no_underscore_natChars y)
    simp only [List.reverse_nil, List.nil_append, List.append_nil, List.append_assoc,
      List.cons_append] at hb1 hb2 hb3 ⊢
    rw [hb1, hb2, hb3]
  rw [dateFromFilename, hstep1]
  simp only [List.get!]
  rw [hstep2]
  simp only [List.get!]
  exact hstep3

lemma zeroPad2_natChars (n : Nat) : zeroPad2 (natChars n) = pad2Spec n := by
  unfold zeroPad2 pad2Spec
  by_cases h : n < 10
  · rw [if_pos ((natChars_length_eq_one_iff n).mpr h), if_pos h]
  · rw [if_neg fun hc => h ((natChars_length_eq_one_iff n).mp hc), if_neg h]

/-- Claim C6: for every calendar date (day d, month m, 4-digit year y), the
derived remote filename is exactly `movie_ids_MM_DD_YYYY.json.gz` with
zero-padded month and day, and the ingest_date later extracted from that
filename is the same date in `YYYY-MM-DD` form. -/
theorem filename_roundtrip_spec (d m y : Nat) (hd1 : 1 ≤ d) (hd2 : d ≤ 31)
    (hm1 : 1 ≤ m) (hm2 : m ≤ 12) (hy1 : 1000 ≤ y) (hy2 : y ≤ 9999) :
    createFilename d m y =
      "movie_ids_".data ++ pad2Spec m ++ '_' :: pad2Spec d ++ '_' :: natChars y ++
        ".json.gz".data ∧
    ingestDateFromFilename (createFilename d m y) =
      natChars y ++ '-' :: pad2Spec m ++ '-' :: pad2Spec d := by
  constructor
  · rw [createFilename]
    rw [zeroPad2_natChars, zeroPad2_natChars]
  · rw [ingestDateFromFilename, dateFromFilename_createFilename d m y]
    simp only [List.get!]
    rw [zeroPad2_natChars, zeroPad2_natChars]

/-- Witness for C6 at the spec's example date, day 5, month 3, year 2020. -/
theorem filename_roundtrip_spec_witness :
    (1 ≤ 5 ∧ 5 ≤ 31 ∧ 1 ≤ 3 ∧ 3 ≤ 12 ∧ 1000 ≤ 2020 ∧ 2020 ≤ 9999) ∧
    (createFilename 5 3 2020 =
      "movie_ids_".data ++ pad2Spec 3 ++ '_' :: pad2Spec 5 ++ '_' :: natChars 2020 ++
        ".json.gz".data ∧
    ingestDateFromFilename (createFilename 5 3 2020) =
      natChars 2020 ++ '-' :: pad2Spec 3 ++ '-' :: pad2Spec 5) :=
  ⟨by omega, filename_roundtrip_spec 5 3 2020 (by decide) (by decide) (by decide)
    (by decide) (by decide) (by decide)⟩
